import Mathlib

/-!
Verification of the bookclub-frontend client-side orchestration logic:
a shallow embedding of the dashboard's data model, the member / session /
discussion modal submit handlers, and the server-list refresh and club
deletion orchestration, together with theorems about the gateway calls
they issue and the selection state they produce.
-/

set_option maxHeartbeats 1000000

/-! ## Data model (from src/supabase.ts type declarations) -/

/-- A member record: `{id, name, points, books_read, clubs}`. -/
structure Member where
  id : Nat
  name : String
  points : Int
  books_read : Int
  clubs : List String
deriving DecidableEq, Repr

/-- A discussion record: `{id, title, date, location?}`. -/
structure Discussion where
  id : String
  title : String
  date : String
  location : Option String
deriving DecidableEq, Repr

/-- A book record: `{title, author, edition?, year?, isbn?}`. -/
structure Book where
  title : String
  author : String
  edition : Option String
  year : Option Int
  isbn : Option String
deriving DecidableEq, Repr

/-- A session record: `{id, book, due_date, discussions}`. -/
structure Session where
  id : String
  book : Book
  due_date : String
  discussions : List Discussion
deriving DecidableEq, Repr

/-- A past-session reference: `{id, due_date}`. -/
structure SessionRef where
  id : String
  due_date : String
deriving DecidableEq, Repr

/-- A club record with its nested state. -/
structure Club where
  id : String
  name : String
  discord_channel : String
  server_id : String
  members : List Member
  active_session : Option Session
  past_sessions : List SessionRef
  shame_list : List Nat
deriving DecidableEq, Repr

/-- A server record: `{id, name, clubs}`. -/
structure Server where
  id : String
  name : String
  clubs : List Club
deriving DecidableEq, Repr

/-! ## Gateway call bodies

Each mutating `supabase.functions.invoke` call is recorded with the body the
code sends, so theorems can speak about which writes were issued and with
what payload. -/

/-- Body of the Member gateway PUT (edit mode). -/
structure MemberPutBody where
  id : Nat
  name : String
  points : Int
  books_read : Int
deriving DecidableEq, Repr

/-- Body of the Member gateway POST (add mode). -/
structure MemberPostBody where
  name : String
  points : Int
  books_read : Int
  clubs : List String
deriving DecidableEq, Repr

/-- Body of the Club gateway PUT used for the shame-list replacement write. -/
structure ClubPutBody where
  id : String
  server_id : Option String
  shame_list : List Nat
deriving DecidableEq, Repr

/-- Body of the Session gateway PUT carrying the whole discussions array. -/
structure SessionPutBody where
  id : String
  discussions : List Discussion
deriving DecidableEq, Repr

/-- Book subobject of the Session gateway POST body. -/
structure BookBody where
  title : String
  author : String
  year : Option Int
deriving DecidableEq, Repr

/-- Body of the Session gateway POST (new session). -/
structure SessionPostBody where
  club_id : String
  book : BookBody
  due_date : String
deriving DecidableEq, Repr

/-- One mutating gateway invocation, tagged by endpoint and method. -/
inductive GatewayCall where
  | memberPut : MemberPutBody → GatewayCall
  | memberPost : MemberPostBody → GatewayCall
  | clubPut : ClubPutBody → GatewayCall
  | sessionPut : SessionPutBody → GatewayCall
  | sessionPost : SessionPostBody → GatewayCall
deriving DecidableEq, Repr

/-- Whether a call writes to the Member gateway. -/
def GatewayCall.isMemberWrite : GatewayCall → Bool
  | .memberPut _ => true
  | .memberPost _ => true
  | _ => false

/-- Whether a call writes to the Club gateway. -/
def GatewayCall.isClubWrite : GatewayCall → Bool
  | .clubPut _ => true
  | _ => false

/-! ## JS helpers -/

/-- Drop leading whitespace characters. -/
def dropWhitespaceLeft : List Char → List Char
  | [] => []
  | c :: cs => if c.isWhitespace then dropWhitespaceLeft cs else c :: cs

/-- Character list of a JS string trim: whitespace removed from both ends. -/
def trimJsChars (s : String) : List Char :=
  dropWhitespaceLeft (dropWhitespaceLeft s.data.reverse).reverse

/-- JS string trim, modelling the trim calls of the source. -/
def trimJs (s : String) : String := String.mk (trimJsChars s)

/-- Accumulate the value of a leading run of decimal digits. -/
def parseDigits : List Char → Nat → Nat
  | [], acc => acc
  | c :: cs, acc => if c.isDigit then parseDigits cs (acc * 10 + (c.toNat - 48)) else acc

/-- JavaScript `parseInt` on a form string: skip surrounding whitespace, accept an
optional sign, then require at least one decimal digit; `none` models `NaN`. -/
def parseIntJs (s : String) : Option Int :=
  match trimJsChars s with
  | [] => none
  | '-' :: c :: cs => if c.isDigit then some (-(parseDigits (c :: cs) 0 : Int)) else none
  | '+' :: c :: cs => if c.isDigit then some ((parseDigits (c :: cs) 0 : Int)) else none
  | c :: cs => if c.isDigit then some ((parseDigits (c :: cs) 0 : Int)) else none

/-! ## Outcome of a modal submit

Records the sequence of mutating gateway calls issued, the error message
surfaced via `onError` (if the last `onError` carried a nonempty message),
whether the success callback fired, and whether the modal closed. -/

structure SubmitOutcome where
  calls : List GatewayCall
  errorMsg : Option String
  savedNotified : Bool
  modalClosed : Bool
deriving DecidableEq, Repr

namespace MemberModal

/-- Form state of the member modal. -/
structure MemberFormData where
  name : String
  points : String
  books_read : String
  on_shame_list : Bool
deriving DecidableEq, Repr

/-- `MemberModal.validateForm`: returns the first validation error message,
or `none` when the form is valid. -/
def validateForm (formData : MemberFormData) : Option String :=
  if trimJs formData.name = "" then some "Member name is required"
  else
    match parseIntJs formData.points with
    | none => some "Points must be a non-negative number"
    | some points =>
      if points < 0 then some "Points must be a non-negative number"
      else
        match parseIntJs formData.books_read with
        | none => some "Books read must be a non-negative number"
        | some booksRead =>
          if booksRead < 0 then some "Books read must be a non-negative number"
          else none

/-- `MemberModal.handleSubmit`. Inputs beyond the component props and form
state are the environment's responses: `memberResult` is the Member gateway
response (`.error m` models `{error}` with optional message `m`; `.ok d`
models success, where `d` is the optional `data.member` payload of a POST),
and `shameFails` tells whether the Club gateway PUT, if issued, errors. -/
def handleSubmit (selectedClub : Club) (selectedServerId : Option String)
    (editingMember : Option Member) (formData : MemberFormData)
    (memberResult : Except (Option String) (Option Member))
    (shameFails : Bool) : SubmitOutcome :=
  match validateForm formData with
  | some msg => { calls := [], errorMsg := some msg, savedNotified := false, modalClosed := false }
  | none =>
    let mName := trimJs formData.name
    let mPoints := (parseIntJs formData.points).getD 0
    let mBooks := (parseIntJs formData.books_read).getD 0
    match editingMember with
    | some em =>
      let memberCall := GatewayCall.memberPut
        { id := em.id, name := mName, points := mPoints, books_read := mBooks }
      match memberResult with
      | .error m =>
        { calls := [memberCall], errorMsg := some (m.getD "Failed to update member"),
          savedNotified := false, modalClosed := false }
      | .ok _ =>
        if formData.on_shame_list != selectedClub.shame_list.contains em.id then
          let newShameList :=
            if formData.on_shame_list then
              if selectedClub.shame_list.contains em.id then selectedClub.shame_list
              else selectedClub.shame_list ++ [em.id]
            else selectedClub.shame_list.filter (fun i => i != em.id)
          let clubCall := GatewayCall.clubPut
            { id := selectedClub.id, server_id := selectedServerId, shame_list := newShameList }
          { calls := [memberCall, clubCall],
            errorMsg :=
              if shameFails then some "Member updated but failed to update shame list status"
              else none,
            savedNotified := true, modalClosed := true }
        else
          { calls := [memberCall], errorMsg := none, savedNotified := true, modalClosed := true }
    | none =>
      let memberCall := GatewayCall.memberPost
        { name := mName, points := mPoints, books_read := mBooks, clubs := [selectedClub.id] }
      match memberResult with
      | .error m =>
        { calls := [memberCall], errorMsg := some (m.getD "Failed to add member"),
          savedNotified := false, modalClosed := false }
      | .ok dataMember =>
        if formData.on_shame_list then
          match dataMember with
          | some newMember =>
            let newShameList := selectedClub.shame_list ++ [newMember.id]
            let clubCall := GatewayCall.clubPut
              { id := selectedClub.id, server_id := selectedServerId, shame_list := newShameList }
            { calls := [memberCall, clubCall],
              errorMsg :=
                if shameFails then some "Member created but failed to add to shame list"
                else none,
              savedNotified := true, modalClosed := true }
          | none =>
            { calls := [memberCall], errorMsg := none, savedNotified := true, modalClosed := true }
        else
          { calls := [memberCall], errorMsg := none, savedNotified := true, modalClosed := true }

end MemberModal

namespace NewSessionModal

/-- Form state of the new-session modal. -/
structure NewSessionFormData where
  title : String
  author : String
  year : String
  due_date : String
deriving DecidableEq, Repr

/-- `NewSessionModal.validateDueDate`. Date strings are interpreted by the
environment function `parseDate` (JS `new Date(s).getTime()`, `none` for an
invalid date, against which every comparison is false); `todayStart` is the
start-of-today timestamp. An empty string passes (the field is checked for
presence separately). -/
def validateDueDate (parseDate : String → Option Int) (todayStart : Int)
    (dateString : String) : Bool :=
  if dateString = "" then true
  else
    match parseDate dateString with
    | none => false
    | some d => todayStart < d

/-- `NewSessionModal.handleSubmit`: validation checks in source order, then a
single Session POST whose response is `postResult`. -/
def handleSubmit (selectedClub : Club) (parseDate : String → Option Int)
    (todayStart : Int) (formData : NewSessionFormData)
    (postResult : Except (Option String) Unit) : SubmitOutcome :=
  if trimJs formData.title = "" ∨ trimJs formData.author = "" then
    { calls := [], errorMsg := some "Title and Author are required",
      savedNotified := false, modalClosed := false }
  else if formData.due_date = "" then
    { calls := [], errorMsg := some "Due date is required",
      savedNotified := false, modalClosed := false }
  else if ¬ validateDueDate parseDate todayStart formData.due_date then
    { calls := [], errorMsg := some "Due date must be in the future",
      savedNotified := false, modalClosed := false }
  else
    let body : SessionPostBody :=
      { club_id := selectedClub.id,
        book :=
          { title := trimJs formData.title, author := trimJs formData.author,
            year := if trimJs formData.year = "" then none else parseIntJs (trimJs formData.year) },
        due_date := formData.due_date }
    match postResult with
    | .error m =>
      { calls := [GatewayCall.sessionPost body],
        errorMsg := some (m.getD "Failed to create session"),
        savedNotified := false, modalClosed := false }
    | .ok _ =>
      { calls := [GatewayCall.sessionPost body], errorMsg := none,
        savedNotified := true, modalClosed := true }

end NewSessionModal

namespace AddDiscussionModal

/-- Form state of the add-discussion modal. -/
structure AddDiscussionFormData where
  title : String
  date : String
  location : String
deriving DecidableEq, Repr

/-- `AddDiscussionModal.validateDate`: an empty string fails, otherwise the
parsed date must be today or later. -/
def validateDate (parseDate : String → Option Int) (todayStart : Int)
    (dateString : String) : Bool :=
  if dateString = "" then false
  else
    match parseDate dateString with
    | none => false
    | some d => todayStart ≤ d

/-- The `newDiscussion` object built by `AddDiscussionModal.handleSubmit`
from the client-generated identifier and the form state. -/
def newDiscussion (newId : String) (formData : AddDiscussionFormData) : Discussion :=
  { id := newId, title := trimJs formData.title, date := formData.date,
    location :=
      if trimJs formData.location = "" then none else some (trimJs formData.location) }

/-- `AddDiscussionModal.handleSubmit`. `newId` is the client-generated
identifier (`crypto.randomUUID()`), produced before any write; `putResult`
is the Session gateway PUT response. -/
def handleSubmit (selectedClub : Club) (parseDate : String → Option Int)
    (todayStart : Int) (newId : String) (formData : AddDiscussionFormData)
    (putResult : Except (Option String) Unit) : SubmitOutcome :=
  if trimJs formData.title = "" then
    { calls := [], errorMsg := some "Discussion title is required",
      savedNotified := false, modalClosed := false }
  else if formData.date = "" then
    { calls := [], errorMsg := some "Discussion date is required",
      savedNotified := false, modalClosed := false }
  else if ¬ validateDate parseDate todayStart formData.date then
    { calls := [], errorMsg := some "Discussion date must be today or in the future",
      savedNotified := false, modalClosed := false }
  else
    match selectedClub.active_session with
    | none =>
      { calls := [], errorMsg := some "No active session found",
        savedNotified := false, modalClosed := false }
    | some activeSession =>
      let existingDiscussions := activeSession.discussions
      let updatedDiscussions := existingDiscussions ++ [newDiscussion newId formData]
      let body : SessionPutBody := { id := activeSession.id, discussions := updatedDiscussions }
      match putResult with
      | .error m =>
        { calls := [GatewayCall.sessionPut body],
          errorMsg := some (m.getD "Failed to add discussion"),
          savedNotified := false, modalClosed := false }
      | .ok _ =>
        { calls := [GatewayCall.sessionPut body], errorMsg := none,
          savedNotified := true, modalClosed := true }

end AddDiscussionModal

/-! ## ClubsDashboard selection state and orchestration -/

/-- The dashboard's selection-relevant state: the server list, the active
server id (the empty string is the initial "none" value of
`useState<string>('')`), the active club, and the surfaced error. -/
structure DashState where
  servers : List Server
  selectedServer : String
  selectedClub : Option Club
  error : Option String
deriving DecidableEq, Repr

namespace ClubsDashboard

/-- `ClubsDashboard.fetchServers(preserveSelection)`: `result` is the Server
gateway GET response; `.ok none` models a response body without a `servers`
field (`data?.servers` falsy), `.ok (some srvs)` a body carrying the list. -/
def fetchServers (preserveSelection : Bool) (st : DashState)
    (result : Except (Option String) (Option (List Server))) : DashState :=
  let st0 := { st with error := none }
  match result with
  | .error m => { st0 with error := some (m.getD "Failed to fetch servers") }
  | .ok none => st0
  | .ok (some srvs) =>
    let st1 := { st0 with servers := srvs }
    if preserveSelection && (st.selectedServer != "")
        && srvs.any (fun s => s.id == st.selectedServer) then
      { st1 with selectedServer := st.selectedServer }
    else
      match srvs with
      | [] => st1
      | s :: _ => { st1 with selectedServer := s.id }

/-- The club reference held in `clubToDelete`. -/
structure ClubRef where
  id : String
  name : String
deriving DecidableEq, Repr

/-- The club-selection clearing step of `handleDeleteClub`: clear the active
club exactly when it is the club just deleted. -/
def clearDeletedClubSelection (st : DashState) (deletedId : String) : DashState :=
  match st.selectedClub with
  | some c => if c.id == deletedId then { st with selectedClub := none } else st
  | none => st

/-- `ClubsDashboard.handleDeleteClub`: issue the Club DELETE
(`deleteResult`); on success clear the deleted club from the selection and
then refresh the server list preserving the server selection
(`refreshResult` is that GET's response); on failure only surface the error. -/
def handleDeleteClub (st : DashState) (clubToDelete : Option ClubRef)
    (deleteResult : Except (Option String) Unit)
    (refreshResult : Except (Option String) (Option (List Server))) : DashState :=
  match clubToDelete with
  | none => st
  | some ctd =>
    match deleteResult with
    | .error m => { st with error := some (m.getD "Failed to delete club") }
    | .ok _ =>
      let st1 := { st with error := none }
      let st2 := clearDeletedClubSelection st1 ctd.id
      fetchServers true st2 refreshResult

end ClubsDashboard

/-- Modelled from the spec: the discussion delete handler is not among the
provided sources (only the add path is). Per §4.3 and the §8 delete
scenario, deleting a discussion by id through the Discussion List Rewrite
Protocol yields the session's previous `discussions` array with the entries
bearing the target id removed, the rest kept in order. -/
def deleteDiscussionById (discussions : List Discussion) (targetId : String) : List Discussion :=
  discussions.filter (fun d => d.id != targetId)

/-! ## Concrete data for witnesses -/

/-- A sample member. -/
def sampleMember : Member :=
  { id := 7, name := "Alice", points := 0, books_read := 0, clubs := ["c1"] }

/-- A sample club whose snapshot has an empty shame list. -/
def sampleClub : Club :=
  { id := "c1", name := "Readers", discord_channel := "general", server_id := "s1",
    members := [sampleMember], active_session := none, past_sessions := [],
    shame_list := [] }

/-- A sample valid member form requesting shame-list membership. -/
def sampleForm : MemberModal.MemberFormData :=
  { name := "Alice", points := "0", books_read := "0", on_shame_list := true }

/-! ## Claim theorems -/

/-- C1: in the shame-list dual-write, if the Club gateway PUT fails after the
Member gateway write succeeded, the member write is not rolled back (it stays
the only Member-gateway call and the save is still reported), and the surfaced
error is the distinct, narrower message saying the member was saved but the
shame-list update failed, different from the generic full-failure message —
in edit mode and in add mode alike. -/
theorem C1_partial_failure_narrow_error
    (club : Club) (srv : Option String) (fd : MemberModal.MemberFormData)
    (em : Member) (d : Option Member) (newMember : Member)
    (hv : MemberModal.validateForm fd = none)
    (hdesired : fd.on_shame_list = true)
    (hcur : em.id ∉ club.shame_list) :
    ((MemberModal.handleSubmit club srv (some em) fd (Except.ok d) true).errorMsg
        = some "Member updated but failed to update shame list status"
      ∧ (MemberModal.handleSubmit club srv (some em) fd (Except.ok d) true).savedNotified = true
      ∧ (MemberModal.handleSubmit club srv (some em) fd (Except.ok d) true).calls.countP
          (fun c => c.isMemberWrite) = 1
      ∧ (MemberModal.handleSubmit club srv (some em) fd (Except.ok d) true).calls.countP
          (fun c => c.isClubWrite) = 1)
    ∧ ((MemberModal.handleSubmit club srv none fd (Except.ok (some newMember)) true).errorMsg
        = some "Member created but failed to add to shame list"
      ∧ (MemberModal.handleSubmit club srv none fd
          (Except.ok (some newMember)) true).savedNotified = true
      ∧ (MemberModal.handleSubmit club srv none fd (Except.ok (some newMember)) true).calls.countP
          (fun c => c.isMemberWrite) = 1
      ∧ (MemberModal.handleSubmit club srv none fd (Except.ok (some newMember)) true).calls.countP
          (fun c => c.isClubWrite) = 1)
    ∧ ("Member updated but failed to update shame list status" ≠ "Failed to update member"
      ∧ "Member created but failed to add to shame list" ≠ "Failed to add member") := by
  refine ⟨⟨?_, ?_, ?_, ?_⟩, ⟨?_, ?_, ?_, ?_⟩, by decide, by decide⟩ <;>
    simp [MemberModal.handleSubmit, hv, hdesired, hcur, List.countP_cons,
      GatewayCall.isMemberWrite, GatewayCall.isClubWrite]

/-- Witness for C1 at concrete inputs. -/
theorem C1_partial_failure_narrow_error_witness :
    (MemberModal.handleSubmit sampleClub (some "s1") (some sampleMember) sampleForm
        (Except.ok none) true).errorMsg
      = some "Member updated but failed to update shame list status" :=
  (C1_partial_failure_narrow_error sampleClub (some "s1") sampleForm sampleMember none
    sampleMember (by decide) (by decide) (by decide)).1.1

/-- C2: the shame-list write sent to the Club gateway is a full replacement
array: the snapshot's previous shame_list plus the member id when adding, the
previous shame_list with the member id filtered out when removing; and a member
added with desired shame-list true ends up in the written shame_list exactly
once. -/
theorem C2_full_replacement_shame_list
    (club : Club) (srv : Option String) (fd : MemberModal.MemberFormData)
    (em : Member) (d : Option Member) (newMember : Member) (sf : Bool)
    (hv : MemberModal.validateForm fd = none) :
    (fd.on_shame_list = true → em.id ∉ club.shame_list →
      (MemberModal.handleSubmit club srv (some em) fd (Except.ok d) sf).calls
        = [GatewayCall.memberPut
            { id := em.id, name := trimJs fd.name,
              points := (parseIntJs fd.points).getD 0,
              books_read := (parseIntJs fd.books_read).getD 0 },
           GatewayCall.clubPut
             { id := club.id, server_id := srv,
               shame_list := club.shame_list ++ [em.id] }])
    ∧ (fd.on_shame_list = false → em.id ∈ club.shame_list →
      (MemberModal.handleSubmit club srv (some em) fd (Except.ok d) sf).calls
        = [GatewayCall.memberPut
            { id := em.id, name := trimJs fd.name,
              points := (parseIntJs fd.points).getD 0,
              books_read := (parseIntJs fd.books_read).getD 0 },
           GatewayCall.clubPut
             { id := club.id, server_id := srv,
               shame_list := club.shame_list.filter (fun i => i != em.id) }])
    ∧ (fd.on_shame_list = true → newMember.id ∉ club.shame_list →
      (MemberModal.handleSubmit club srv none fd (Except.ok (some newMember)) sf).calls
        = [GatewayCall.memberPost
            { name := trimJs fd.name, points := (parseIntJs fd.points).getD 0,
              books_read := (parseIntJs fd.books_read).getD 0, clubs := [club.id] },
           GatewayCall.clubPut
             { id := club.id, server_id := srv,
               shame_list := club.shame_list ++ [newMember.id] }]
        ∧ (club.shame_list ++ [newMember.id]).count newMember.id = 1) := by
  refine ⟨fun h1 h2 => ?_, fun h1 h2 => ?_, fun h1 h2 => ⟨?_, ?_⟩⟩
  · simp [MemberModal.handleSubmit, hv, h1, h2]
  · simp [MemberModal.handleSubmit, hv, h1, h2]
  · simp [MemberModal.handleSubmit, hv, h1]
  · simp [List.count_append, List.count_eq_zero.mpr h2]

/-- Witness for C2 at concrete inputs. -/
theorem C2_full_replacement_shame_list_witness :
    (MemberModal.handleSubmit sampleClub (some "s1") none sampleForm
        (Except.ok (some sampleMember)) false).calls
      = [GatewayCall.memberPost
          { name := "Alice", points := 0, books_read := 0, clubs := ["c1"] },
         GatewayCall.clubPut { id := "c1", server_id := some "s1", shame_list := [7] }]
    ∧ ([] ++ [7] : List Nat).count 7 = 1 :=
  (C2_full_replacement_shame_list sampleClub (some "s1") sampleForm sampleMember none
    sampleMember false (by decide)).2.2 (by decide) (by decide)

/-- C3: when the desired shame-list boolean equals the member's current
shame-list membership in the club snapshot, zero Club gateway writes are
issued; only the member write occurs. -/
theorem C3_noop_toggle_skips_club_write
    (club : Club) (srv : Option String) (fd : MemberModal.MemberFormData)
    (em : Member) (d : Option Member) (sf : Bool)
    (hv : MemberModal.validateForm fd = none)
    (heq : fd.on_shame_list = club.shame_list.contains em.id) :
    (MemberModal.handleSubmit club srv (some em) fd (Except.ok d) sf).calls
      = [GatewayCall.memberPut
          { id := em.id, name := trimJs fd.name,
            points := (parseIntJs fd.points).getD 0,
            books_read := (parseIntJs fd.books_read).getD 0 }]
    ∧ (MemberModal.handleSubmit club srv (some em) fd (Except.ok d) sf).calls.countP
        (fun c => c.isClubWrite) = 0 := by
  constructor <;>
    simp [MemberModal.handleSubmit, hv, heq, List.countP_cons, GatewayCall.isClubWrite]

/-- Witness for C3 at concrete inputs. -/
theorem C3_noop_toggle_skips_club_write_witness :
    (MemberModal.handleSubmit sampleClub (some "s1") (some sampleMember)
        { sampleForm with on_shame_list := false } (Except.ok none) false).calls
      = [GatewayCall.memberPut { id := 7, name := "Alice", points := 0, books_read := 0 }]
    ∧ (MemberModal.handleSubmit sampleClub (some "s1") (some sampleMember)
        { sampleForm with on_shame_list := false } (Except.ok none) false).calls.countP
        (fun c => c.isClubWrite) = 0 :=
  C3_noop_toggle_skips_club_write sampleClub (some "s1")
    { sampleForm with on_shame_list := false } sampleMember none false
    (by decide) (by decide)

/-- C4: if the Member gateway call fails during a shame-list add, the Club
gateway PUT is never issued and the surfaced error is the member-level
failure message (the save is not reported and the modal stays open). -/
theorem C4_member_failure_blocks_club_write
    (club : Club) (srv : Option String) (fd : MemberModal.MemberFormData)
    (m : String) (sf : Bool)
    (hv : MemberModal.validateForm fd = none)
    (hdesired : fd.on_shame_list = true) :
    (MemberModal.handleSubmit club srv none fd (Except.error (some m)) sf).calls
      = [GatewayCall.memberPost
          { name := trimJs fd.name, points := (parseIntJs fd.points).getD 0,
            books_read := (parseIntJs fd.books_read).getD 0, clubs := [club.id] }]
    ∧ (MemberModal.handleSubmit club srv none fd (Except.error (some m)) sf).calls.countP
        (fun c => c.isClubWrite) = 0
    ∧ (MemberModal.handleSubmit club srv none fd (Except.error (some m)) sf).errorMsg = some m
    ∧ (MemberModal.handleSubmit club srv none fd (Except.error (some m)) sf).savedNotified = false
    ∧ (MemberModal.handleSubmit club srv none fd (Except.error (some m)) sf).modalClosed
        = false := by
  refine ⟨?_, ?_, ?_, ?_, ?_⟩ <;>
    simp [MemberModal.handleSubmit, hv, List.countP_cons, GatewayCall.isClubWrite]

/-- Witness for C4 at concrete inputs. -/
theorem C4_member_failure_blocks_club_write_witness :
    (MemberModal.handleSubmit sampleClub (some "s1") none sampleForm
        (Except.error (some "boom")) false).errorMsg = some "boom"
    ∧ (MemberModal.handleSubmit sampleClub (some "s1") none sampleForm
        (Except.error (some "boom")) false).calls.countP (fun c => c.isClubWrite) = 0 :=
  ⟨(C4_member_failure_blocks_club_write sampleClub (some "s1") sampleForm "boom" false
      (by decide) (by decide)).2.2.1,
   (C4_member_failure_blocks_club_write sampleClub (some "s1") sampleForm "boom" false
      (by decide) (by decide)).2.1⟩

/-- C10: in add mode with desired shame-list true, a successful member create
whose response payload carries no member field silently skips the Club
shame-list write: no error is surfaced, the modal closes, and the operation is
reported as a successful save. -/
theorem C10_missing_member_payload_skips_shame_write
    (club : Club) (srv : Option String) (fd : MemberModal.MemberFormData) (sf : Bool)
    (hv : MemberModal.validateForm fd = none)
    (hdesired : fd.on_shame_list = true) :
    (MemberModal.handleSubmit club srv none fd (Except.ok none) sf).calls
      = [GatewayCall.memberPost
          { name := trimJs fd.name, points := (parseIntJs fd.points).getD 0,
            books_read := (parseIntJs fd.books_read).getD 0, clubs := [club.id] }]
    ∧ (MemberModal.handleSubmit club srv none fd (Except.ok none) sf).calls.countP
        (fun c => c.isClubWrite) = 0
    ∧ (MemberModal.handleSubmit club srv none fd (Except.ok none) sf).errorMsg = none
    ∧ (MemberModal.handleSubmit club srv none fd (Except.ok none) sf).savedNotified = true
    ∧ (MemberModal.handleSubmit club srv none fd (Except.ok none) sf).modalClosed = true := by
  refine ⟨?_, ?_, ?_, ?_, ?_⟩ <;>
    simp [MemberModal.handleSubmit, hv, hdesired, List.countP_cons, GatewayCall.isClubWrite]

/-- Witness for C10 at concrete inputs. -/
theorem C10_missing_member_payload_skips_shame_write_witness :
    (MemberModal.handleSubmit sampleClub (some "s1") none sampleForm
        (Except.ok none) false).errorMsg = none
    ∧ (MemberModal.handleSubmit sampleClub (some "s1") none sampleForm
        (Except.ok none) false).calls.countP (fun c => c.isClubWrite) = 0 :=
  ⟨(C10_missing_member_payload_skips_shame_write sampleClub (some "s1") sampleForm false
      (by decide) (by decide)).2.2.1,
   (C10_missing_member_payload_skips_shame_write sampleClub (some "s1") sampleForm false
      (by decide) (by decide)).2.1⟩


/-- A sample discussion (the §8 delete scenario's entry). -/
def sampleDiscussion : Discussion :=
  { id := "d1", title := "Kickoff", date := "2025-01-01", location := none }

/-- A sample session holding one discussion. -/
def sampleSession : Session :=
  { id := "sess1",
    book := { title := "Dune", author := "Herbert", edition := none, year := none,
              isbn := none },
    due_date := "2025-12-01", discussions := [sampleDiscussion] }

/-- The sample club with an active session. -/
def sampleClubWithSession : Club := { sampleClub with active_session := some sampleSession }

/-- A sample server. -/
def sampleServer : Server := { id := "s1", name := "Server One", clubs := [] }

/-- A sample dashboard state with server "s1" selected. -/
def sampleDash : DashState :=
  { servers := [sampleServer], selectedServer := "s1", selectedClub := none, error := none }

/-- The sample dashboard state with the sample club also selected. -/
def sampleDashWithClub : DashState := { sampleDash with selectedClub := some sampleClub }

/-- C5: adding a discussion issues one Session PUT whose discussions array is
the session's current array with the new discussion — carrying the
client-generated identifier — appended; the array length grows by exactly one
and the new id occurs exactly once in the array. -/
theorem C5_add_discussion_protocol
    (club : Club) (parseDate : String → Option Int) (todayStart : Int)
    (newId : String) (fd : AddDiscussionModal.AddDiscussionFormData)
    (r : Except (Option String) Unit) (activeSession : Session)
    (ht : trimJs fd.title ≠ "")
    (hd : fd.date ≠ "")
    (hvd : AddDiscussionModal.validateDate parseDate todayStart fd.date = true)
    (hs : club.active_session = some activeSession)
    (hfresh : newId ∉ activeSession.discussions.map Discussion.id) :
    (AddDiscussionModal.handleSubmit club parseDate todayStart newId fd r).calls
      = [GatewayCall.sessionPut
          { id := activeSession.id,
            discussions :=
              activeSession.discussions ++ [AddDiscussionModal.newDiscussion newId fd] }]
    ∧ (activeSession.discussions ++ [AddDiscussionModal.newDiscussion newId fd]).length
        = activeSession.discussions.length + 1
    ∧ ((activeSession.discussions ++ [AddDiscussionModal.newDiscussion newId fd]).map
        Discussion.id).count newId = 1 := by
  refine ⟨?_, by simp, ?_⟩
  · cases r <;> simp [AddDiscussionModal.handleSubmit, ht, hd, hvd, hs]
  · simp [List.count_append, List.count_eq_zero.mpr hfresh,
      AddDiscussionModal.newDiscussion]

/-- Witness for C5 at concrete inputs. -/
theorem C5_add_discussion_protocol_witness :
    (AddDiscussionModal.handleSubmit sampleClubWithSession (fun _ => some 50) 0 "d2"
        { title := "Ch 2", date := "2025-01-02", location := "" } (Except.ok ())).calls
      = [GatewayCall.sessionPut
          { id := "sess1",
            discussions := [sampleDiscussion,
              AddDiscussionModal.newDiscussion "d2"
                { title := "Ch 2", date := "2025-01-02", location := "" }] }] :=
  (C5_add_discussion_protocol sampleClubWithSession (fun _ => some 50) 0 "d2"
    { title := "Ch 2", date := "2025-01-02", location := "" } (Except.ok ()) sampleSession
    (by decide) (by decide) (by decide) (by decide) (by decide)).1

/-- C6 counterexample: with `preserveSelection = true` and an empty fetched
server list, `fetchServers` keeps the stale previous selection "s1" instead of
falling back to the none value (the empty string). -/
theorem C6_empty_list_keeps_selection_counterexample :
    (ClubsDashboard.fetchServers true sampleDash (Except.ok (some []))).selectedServer = "s1"
    ∧ (ClubsDashboard.fetchServers true sampleDash
        (Except.ok (some []))).selectedServer ≠ "" := by
  constructor <;> decide

/-- C6 (amended): `refreshServers` with `preserveSelection = true` keeps the
previously active server id if it is still present in the fetched list;
otherwise it falls back to the first server of the fetched list; if the
fetched list is empty, the previous selection is left unchanged rather than
cleared. -/
theorem C6_refresh_preserve_selection
    (st : DashState) (srvs : List Server)
    (hsel : st.selectedServer ≠ "") :
    (srvs.any (fun s => s.id == st.selectedServer) = true →
      (ClubsDashboard.fetchServers true st (Except.ok (some srvs))).selectedServer
        = st.selectedServer)
    ∧ (srvs.any (fun s => s.id == st.selectedServer) = false →
      ∀ s0 rest, srvs = s0 :: rest →
        (ClubsDashboard.fetchServers true st (Except.ok (some srvs))).selectedServer = s0.id)
    ∧ (srvs = [] →
      (ClubsDashboard.fetchServers true st (Except.ok (some srvs))).selectedServer
        = st.selectedServer) := by
  refine ⟨fun hany => ?_, fun hany s0 rest hcons => ?_, fun hnil => ?_⟩
  · simp [ClubsDashboard.fetchServers, hsel, hany]
  · subst hcons
    simp [ClubsDashboard.fetchServers, hsel, hany]
  · subst hnil
    simp [ClubsDashboard.fetchServers]

/-- Witness for the amended C6 at concrete inputs. -/
theorem C6_refresh_preserve_selection_witness :
    (ClubsDashboard.fetchServers true sampleDash
        (Except.ok (some [sampleServer]))).selectedServer = "s1" :=
  (C6_refresh_preserve_selection sampleDash [sampleServer] (by decide)).1 (by decide)

/-- C7: after a successful Club DELETE of the currently selected club, the
club selection is already cleared on the state the server-list refresh starts
from, the refresh is exactly `fetchServers` with `preserveSelection = true`,
and the server selection is unchanged whenever that server is still in the
fetched list. -/
theorem C7_delete_club_clears_club_keeps_server
    (st : DashState) (ctd : ClubsDashboard.ClubRef) (club : Club)
    (refreshResult : Except (Option String) (Option (List Server)))
    (hclub : st.selectedClub = some club) (hid : club.id = ctd.id) :
    (ClubsDashboard.clearDeletedClubSelection { st with error := none } ctd.id).selectedClub
      = none
    ∧ ClubsDashboard.handleDeleteClub st (some ctd) (Except.ok ()) refreshResult
      = ClubsDashboard.fetchServers true
          (ClubsDashboard.clearDeletedClubSelection { st with error := none } ctd.id)
          refreshResult
    ∧ (∀ srvs, refreshResult = Except.ok (some srvs) → st.selectedServer ≠ "" →
        srvs.any (fun s => s.id == st.selectedServer) = true →
        (ClubsDashboard.handleDeleteClub st (some ctd) (Except.ok ())
          refreshResult).selectedServer = st.selectedServer) := by
  refine ⟨?_, ?_, ?_⟩
  · simp [ClubsDashboard.clearDeletedClubSelection, hclub, hid]
  · simp [ClubsDashboard.handleDeleteClub]
  · intro srvs hr hsel hany
    subst hr
    simp [ClubsDashboard.handleDeleteClub, ClubsDashboard.clearDeletedClubSelection,
      ClubsDashboard.fetchServers, hclub, hid, hsel, hany]

/-- Witness for C7 at concrete inputs. -/
theorem C7_delete_club_clears_club_keeps_server_witness :
    (ClubsDashboard.handleDeleteClub sampleDashWithClub
        (some { id := "c1", name := "Readers" }) (Except.ok ())
        (Except.ok (some [sampleServer]))).selectedServer = "s1" :=
  (C7_delete_club_clears_club_keeps_server sampleDashWithClub
    { id := "c1", name := "Readers" } sampleClub (Except.ok (some [sampleServer]))
    (by decide) (by decide)).2.2 [sampleServer] rfl (by decide) (by decide)

/-- C8: deleting a discussion by id removes exactly the entry bearing that id
from the session's discussions array, leaving every other entry and their
relative order unchanged. -/
theorem C8_delete_discussion_exact
    (l1 l2 : List Discussion) (d : Discussion) (targetId : String)
    (hd : d.id = targetId)
    (h1 : ∀ e ∈ l1, e.id ≠ targetId) (h2 : ∀ e ∈ l2, e.id ≠ targetId) :
    deleteDiscussionById (l1 ++ d :: l2) targetId = l1 ++ l2 := by
  have e1 : l1.filter (fun e => e.id != targetId) = l1 :=
    List.filter_eq_self.mpr (fun e he => by simp [h1 e he])
  have e2 : l2.filter (fun e => e.id != targetId) = l2 :=
    List.filter_eq_self.mpr (fun e he => by simp [h2 e he])
  simp [deleteDiscussionById, List.filter_append, List.filter_cons, hd, e1, e2]

/-- Witness for C8: the §8 scenario, deleting "d1" from a one-entry array. -/
theorem C8_delete_discussion_exact_witness :
    deleteDiscussionById [sampleDiscussion] "d1" = [] :=
  C8_delete_discussion_exact [] [] sampleDiscussion "d1" (by decide)
    (by simp) (by simp)

/-- C9: inputs failing validation are caught before any gateway call: an empty
required member name, or a session due date not in the future, surface an
error immediately and zero gateway calls are issued for that submission. -/
theorem C9_validation_blocks_gateway_calls
    (club club2 : Club) (srv : Option String) (em : Option Member)
    (fd : MemberModal.MemberFormData)
    (mr : Except (Option String) (Option Member)) (sf : Bool)
    (parseDate : String → Option Int) (todayStart : Int)
    (fd2 : NewSessionModal.NewSessionFormData)
    (pr : Except (Option String) Unit)
    (hname : trimJs fd.name = "")
    (hdate : NewSessionModal.validateDueDate parseDate todayStart fd2.due_date = false) :
    ((MemberModal.handleSubmit club srv em fd mr sf).calls = []
      ∧ (MemberModal.handleSubmit club srv em fd mr sf).errorMsg
          = some "Member name is required")
    ∧ ((NewSessionModal.handleSubmit club2 parseDate todayStart fd2 pr).calls = []
      ∧ (NewSessionModal.handleSubmit club2 parseDate todayStart fd2 pr).errorMsg.isSome
          = true) := by
  have hne : fd2.due_date ≠ "" := by
    intro h
    rw [h] at hdate
    simp [NewSessionModal.validateDueDate] at hdate
  refine ⟨⟨?_, ?_⟩, ?_⟩
  · simp [MemberModal.handleSubmit, MemberModal.validateForm, hname]
  · simp [MemberModal.handleSubmit, MemberModal.validateForm, hname]
  · by_cases hta : trimJs fd2.title = "" ∨ trimJs fd2.author = ""
    · constructor <;> simp [NewSessionModal.handleSubmit, hta]
    · constructor <;> simp [NewSessionModal.handleSubmit, hta, hne, hdate]

/-- Witness for C9 at concrete inputs: a whitespace-only member name and a
past session due date. -/
theorem C9_validation_blocks_gateway_calls_witness :
    (MemberModal.handleSubmit sampleClub (some "s1") none
        { name := "   ", points := "0", books_read := "0", on_shame_list := false }
        (Except.ok none) false).calls = []
    ∧ (NewSessionModal.handleSubmit sampleClub (fun _ => some 0) 100
        { title := "Dune", author := "Herbert", year := "", due_date := "2020-01-01" }
        (Except.ok ())).calls = [] :=
  ⟨(C9_validation_blocks_gateway_calls sampleClub sampleClub (some "s1") none
      { name := "   ", points := "0", books_read := "0", on_shame_list := false }
      (Except.ok none) false (fun _ => some 0) 100
      { title := "Dune", author := "Herbert", year := "", due_date := "2020-01-01" }
      (Except.ok ()) (by decide) (by decide)).1.1,
   (C9_validation_blocks_gateway_calls sampleClub sampleClub (some "s1") none
      { name := "   ", points := "0", books_read := "0", on_shame_list := false }
      (Except.ok none) false (fun _ => some 0) 100
      { title := "Dune", author := "Herbert", year := "", due_date := "2020-01-01" }
      (Except.ok ()) (by decide) (by decide)).2.1⟩
